import Mathlib

/-!
Verification development for the direct-message synchronization layer and
embedded mini-games of a small social-media client.

The definitions below are shallow embeddings of the TypeScript components:

* `DirectMessages.tsx` — optimistic send, rollback, realtime INSERT
  callback, read-marking, conversation-list sorting;
* `games/TicTacToe.tsx` and `MultiplayerTicTacToe` — win detection;
* `games/RockPaperScissors.tsx` and `MultiplayerRockPaperScissors` —
  round resolution and score updates;
* `games/MultiplayerGameMenu.tsx` — game-payload parsing pipeline.

Timestamps (ISO strings compared through `Date.getTime()` in the source)
are modelled as natural numbers; the external JSON parser is modelled by
a content type that distinguishes unparseable text from a parsed object
with optional fields, matching how the JavaScript code observes it.
-/

namespace SocialMedia

/-- Profile row as selected by the components (id, username, avatar_url). -/
structure Profile where
  id : String
  username : Option String
  avatar_url : Option String
  deriving DecidableEq, Repr

/-- Row of the direct_messages table as held in the local `messages` state,
with the optional joined sender profile and the nullable read_at column. -/
structure DirectMessage where
  id : String
  sender_id : String
  receiver_id : String
  content : String
  image_url : Option String
  created_at : Nat
  sender : Option Profile
  read_at : Option Nat
  deriving DecidableEq, Repr

/-- Generic helper: mapping a function that fixes every element of a list
leaves the list unchanged. -/
theorem map_eq_self_of_mem {α : Type} (l : List α) (f : α → α)
    (h : ∀ a ∈ l, f a = a) : l.map f = l := by
  induction l with
  | nil => rfl
  | cons a t ih =>
    simp only [List.map_cons, h a (List.mem_cons_self a t)]
    rw [ih (fun x hx => h x (List.mem_cons_of_mem a hx))]

/-! Message synchronization engine: sendMessage success and failure paths
(`DirectMessages.tsx`, `sendMessage`). -/

/-- Success-branch state updater of `sendMessage`: replace the entry whose
id equals the temporary id with the store-confirmed row
(`prev.map(msg => msg.id === optimisticMessage.id ? data : msg)`). -/
def replaceOptimistic (log : List DirectMessage) (tempId : String)
    (confirmed : DirectMessage) : List DirectMessage :=
  log.map (fun msg => if msg.id == tempId then confirmed else msg)

/-- Failure-branch state updater of `sendMessage`: remove the optimistic
entry (`prev.filter(msg => msg.id !== optimisticMessage.id)`). -/
def removeOptimistic (log : List DirectMessage) (tempId : String) :
    List DirectMessage :=
  log.filter (fun msg => msg.id != tempId)

/-- Whole success path of `sendMessage` on the local log: optimistic append
(`setMessages(prev => [...prev, optimisticMessage])`) followed by the
confirmed replacement matched on the temporary id. -/
def sendMessageSuccess (log : List DirectMessage)
    (optimistic confirmed : DirectMessage) : List DirectMessage :=
  replaceOptimistic (log ++ [optimistic]) optimistic.id confirmed

/-- Whole failure path of `sendMessage` on the local log: optimistic append
followed by the rollback filter on the temporary id. -/
def sendMessageFailure (log : List DirectMessage)
    (optimistic : DirectMessage) : List DirectMessage :=
  removeOptimistic (log ++ [optimistic]) optimistic.id

/-- C1: when the durable-store insert succeeds, the confirmed row replaces
the optimistic temporary entry in place, matched by the temporary id: the
log after the whole success path is exactly the pre-call log with the
confirmed entry at the position the temporary entry held (the end, where
step 2 appended it), so the length matches the post-append log, every
other entry is unchanged, the log is not reordered, and — as long as the
confirmed permanent id is not already present — no duplicate id is
created. -/
theorem sendMessage_success_replaces_in_place
    (log : List DirectMessage) (optimistic confirmed : DirectMessage)
    (htemp : ∀ m ∈ log, m.id ≠ optimistic.id) :
    sendMessageSuccess log optimistic confirmed = log ++ [confirmed]
    ∧ (sendMessageSuccess log optimistic confirmed).length
        = (log ++ [optimistic]).length
    ∧ ((log.map DirectMessage.id).Nodup →
        confirmed.id ∉ log.map DirectMessage.id →
        ((sendMessageSuccess log optimistic confirmed).map
          DirectMessage.id).Nodup) := by
  have hmain : sendMessageSuccess log optimistic confirmed
      = log ++ [confirmed] := by
    unfold sendMessageSuccess replaceOptimistic
    rw [List.map_append]
    have h1 : log.map
        (fun msg => if msg.id == optimistic.id then confirmed else msg)
        = log := by
      apply map_eq_self_of_mem
      intro m hm
      simp [htemp m hm]
    rw [h1]
    simp
  refine ⟨hmain, ?_, ?_⟩
  · rw [hmain]; simp
  · intro hnd hfresh
    rw [hmain]
    simp only [List.map_append, List.map_cons, List.map_nil]
    simp [List.nodup_append, hnd, hfresh]

/-- Concrete witness for C1: replacing the temporary entry in a one-message
log yields the old message followed by the confirmed one. -/
theorem sendMessage_success_replaces_in_place_witness :
    sendMessageSuccess
      [{ id := "m1", sender_id := "peer", receiver_id := "self",
         content := "hi", image_url := none, created_at := 1,
         sender := none, read_at := none }]
      { id := "optimistic-2", sender_id := "self", receiver_id := "peer",
        content := "yo", image_url := none, created_at := 2,
        sender := none, read_at := none }
      { id := "uuid-2", sender_id := "self", receiver_id := "peer",
        content := "yo", image_url := none, created_at := 3,
        sender := none, read_at := none }
    = [{ id := "m1", sender_id := "peer", receiver_id := "self",
         content := "hi", image_url := none, created_at := 1,
         sender := none, read_at := none },
       { id := "uuid-2", sender_id := "self", receiver_id := "peer",
         content := "yo", image_url := none, created_at := 3,
         sender := none, read_at := none }] :=
  (sendMessage_success_replaces_in_place _ _ _ (by decide)).1

/-- C2: when the durable-store insert fails, the rollback filter removes
exactly the optimistic temporary entry, leaving the log identical to its
pre-call state. -/
theorem sendMessage_failure_rolls_back
    (log : List DirectMessage) (optimistic : DirectMessage)
    (htemp : ∀ m ∈ log, m.id ≠ optimistic.id) :
    sendMessageFailure log optimistic = log := by
  unfold sendMessageFailure removeOptimistic
  rw [List.filter_append]
  have h1 : log.filter (fun msg => msg.id != optimistic.id) = log := by
    rw [List.filter_eq_self]
    intro m hm
    simp [htemp m hm]
  rw [h1]
  simp

/-- Concrete witness for C2: a failed send on a one-message log leaves that
log unchanged. -/
theorem sendMessage_failure_rolls_back_witness :
    sendMessageFailure
      [{ id := "m1", sender_id := "peer", receiver_id := "self",
         content := "hi", image_url := none, created_at := 1,
         sender := none, read_at := none }]
      { id := "optimistic-2", sender_id := "self", receiver_id := "peer",
        content := "yo", image_url := none, created_at := 2,
        sender := none, read_at := none }
    = [{ id := "m1", sender_id := "peer", receiver_id := "self",
         content := "hi", image_url := none, created_at := 1,
         sender := none, read_at := none }] :=
  sendMessage_failure_rolls_back _ _ (by decide)

/-! Realtime INSERT callback (`DirectMessages.tsx`, channel handler). -/

/-- State updater run by the realtime INSERT callback once the detail
re-fetch succeeded: append the arrived message unless an entry with the
same id already exists
(`prev.some(msg => msg.id === messageWithSender.id) ? prev : [...prev, m]`). -/
def realtimeInsertUpdate (log : List DirectMessage)
    (incoming : DirectMessage) : List DirectMessage :=
  if log.any (fun msg => msg.id == incoming.id) then log
  else log ++ [incoming]

/-- C3: the push handler never appends a message whose permanent id already
occurs in the local log; on such a self-echo the log is returned
unchanged, so in particular its length is unchanged. -/
theorem realtime_insert_deduplicates
    (log : List DirectMessage) (incoming : DirectMessage)
    (hdup : ∃ m ∈ log, m.id = incoming.id) :
    realtimeInsertUpdate log incoming = log
    ∧ (realtimeInsertUpdate log incoming).length = log.length := by
  have hany : log.any (fun msg => msg.id == incoming.id) = true := by
    rcases hdup with ⟨m, hm, hid⟩
    simp only [List.any_eq_true]
    exact ⟨m, hm, by simp [hid]⟩
  unfold realtimeInsertUpdate
  rw [hany]
  simp

/-- Concrete witness for C3: echoing back the only message of a log leaves
the log unchanged. -/
theorem realtime_insert_deduplicates_witness :
    realtimeInsertUpdate
      [{ id := "uuid-1", sender_id := "self", receiver_id := "peer",
         content := "hi", image_url := none, created_at := 1,
         sender := none, read_at := none }]
      { id := "uuid-1", sender_id := "self", receiver_id := "peer",
        content := "hi", image_url := none, created_at := 1,
        sender := none, read_at := none }
    = [{ id := "uuid-1", sender_id := "self", receiver_id := "peer",
         content := "hi", image_url := none, created_at := 1,
         sender := none, read_at := none }] :=
  (realtime_insert_deduplicates _ _ ⟨_, List.mem_cons_self _ _, rfl⟩).1

/-- Message with timestamp 2 used in the out-of-order delivery scenario. -/
def lateMsg : DirectMessage :=
  { id := "uuid-t2", sender_id := "peer", receiver_id := "self",
    content := "second", image_url := none, created_at := 2,
    sender := none, read_at := none }

/-- Message with timestamp 1 used in the out-of-order delivery scenario. -/
def earlyMsg : DirectMessage :=
  { id := "uuid-t1", sender_id := "peer", receiver_id := "self",
    content := "first", image_url := none, created_at := 1,
    sender := none, read_at := none }

/-- C4 counterexample: delivering two messages with created_at t1 = 1 and
t2 = 2 to the push handler in the order (t2, t1) produces the log
[t2, t1], not the claimed createdAt-ordered [t1, t2]: the handler is
append-only and does not insert at the position implied by created_at. -/
theorem realtime_insert_out_of_order_counterexample :
    realtimeInsertUpdate (realtimeInsertUpdate [] lateMsg) earlyMsg
      = [lateMsg, earlyMsg]
    ∧ realtimeInsertUpdate (realtimeInsertUpdate [] lateMsg) earlyMsg
      ≠ [earlyMsg, lateMsg] := by
  constructor
  · rfl
  · decide

/-- C4 amended: the push handler appends in arrival order, so two messages
with distinct ids delivered in the order (t2, t1) to an empty log yield
the log [t2, t1]; createdAt order is only restored by the next full
fetch, which orders by created_at ascending. -/
theorem realtime_insert_appends_in_arrival_order
    (a b : DirectMessage) (hid : a.id ≠ b.id) :
    realtimeInsertUpdate (realtimeInsertUpdate [] a) b = [a, b] := by
  unfold realtimeInsertUpdate
  simp [hid]

/-- Concrete witness for the amended C4: the two scenario messages arrive
late-first and the log keeps that arrival order. -/
theorem realtime_insert_appends_in_arrival_order_witness :
    realtimeInsertUpdate (realtimeInsertUpdate [] lateMsg) earlyMsg
      = [lateMsg, earlyMsg] :=
  realtime_insert_appends_in_arrival_order lateMsg earlyMsg (by decide)

/-! Read marking (`DirectMessages.tsx`, `markMessagesAsRead`). -/

/-- Effect of the batched update on one row: set read_at to the current
time when the row was sent by the selected friend to the current user and
is still unread (`.eq(sender_id).eq(receiver_id).is(read_at, null)`);
leave every other row untouched. -/
def markOne (selfId peerId : String) (now : Nat)
    (m : DirectMessage) : DirectMessage :=
  if m.sender_id == peerId && m.receiver_id == selfId && m.read_at.isNone
  then { m with read_at := some now } else m

/-- Effect of `markMessagesAsRead` on the stored conversation rows: one
batched update applying `markOne` to every row. -/
def markMessagesAsRead (db : List DirectMessage)
    (selfId peerId : String) (now : Nat) : List DirectMessage :=
  db.map (markOne selfId peerId now)

/-- Helper: marking a row twice is the same as marking it once — the first
call either sets read_at (after which the null test fails) or leaves the
row untouched (and it keeps failing the same test). -/
theorem markOne_markOne (selfId peerId : String) (t1 t2 : Nat)
    (m : DirectMessage) :
    markOne selfId peerId t2 (markOne selfId peerId t1 m)
      = markOne selfId peerId t1 m := by
  unfold markOne
  split
  · simp
  · rfl

/-- C5: read-marking is idempotent. Running the batched update twice in a
row equals running it once (the second call is a no-op regardless of its
timestamp); a row whose read_at is already set is never touched, so each
read_at transitions at most once from null to a timestamp; and only rows
sent by the peer to self are ever updated. -/
theorem markMessagesAsRead_idempotent
    (db : List DirectMessage) (selfId peerId : String) (t1 t2 : Nat) :
    markMessagesAsRead (markMessagesAsRead db selfId peerId t1)
        selfId peerId t2
      = markMessagesAsRead db selfId peerId t1
    ∧ (∀ m : DirectMessage, m.read_at ≠ none →
        markOne selfId peerId t1 m = m)
    ∧ (∀ m : DirectMessage,
        ¬(m.sender_id = peerId ∧ m.receiver_id = selfId) →
        markOne selfId peerId t1 m = m) := by
  refine ⟨?_, ?_, ?_⟩
  · unfold markMessagesAsRead
    rw [List.map_map]
    apply List.map_congr_left
    intro m _
    exact markOne_markOne selfId peerId t1 t2 m
  · intro m hm
    unfold markOne
    split
    · rename_i hcond
      exfalso
      apply hm
      simpa using (Option.isNone_iff_eq_none.mp (by
        simpa using (Bool.and_elim_right hcond)))
    · rfl
  · intro m hm
    unfold markOne
    split
    · rename_i hcond
      exfalso
      apply hm
      have h1 := Bool.and_elim_left hcond
      exact ⟨by simpa using (Bool.and_elim_left h1),
             by simpa using (Bool.and_elim_right h1)⟩
    · rfl

/-- Concrete witness for C5: marking a one-message conversation read twice
equals marking it once, and a message already read is left untouched. -/
theorem markMessagesAsRead_idempotent_witness :
    markMessagesAsRead
        (markMessagesAsRead
          [{ id := "m1", sender_id := "peer", receiver_id := "self",
             content := "hi", image_url := none, created_at := 1,
             sender := none, read_at := none }] "self" "peer" 5)
        "self" "peer" 9
      = markMessagesAsRead
          [{ id := "m1", sender_id := "peer", receiver_id := "self",
             content := "hi", image_url := none, created_at := 1,
             sender := none, read_at := none }] "self" "peer" 5
    ∧ markOne "self" "peer" 5
        { id := "m0", sender_id := "peer", receiver_id := "self",
          content := "old", image_url := none, created_at := 0,
          sender := none, read_at := some 3 }
      = { id := "m0", sender_id := "peer", receiver_id := "self",
          content := "old", image_url := none, created_at := 0,
          sender := none, read_at := some 3 } :=
  ⟨(markMessagesAsRead_idempotent _ "self" "peer" 5 9).1,
   (markMessagesAsRead_idempotent [] "self" "peer" 5 9).2.1 _ (by decide)⟩

/-! Tic-tac-toe win detection (`games/TicTacToe.tsx`, `checkWinner`; the
multiplayer revision uses the identical line table and logic). -/

/-- Board mark, X or O in the source. -/
inductive Mark where
  | X
  | O
  deriving DecidableEq, Repr

/-- Nine-cell board; `null` cells are `none`. -/
abbrev Board := List (Option Mark)

/-- Non-null game outcome — X, O or tie in the source; the ongoing
state (`null`) is `none` at use sites. -/
inductive TTTResult where
  | mark (m : Mark)
  | tie
  deriving DecidableEq, Repr

/-- The eight winning index triples of `checkWinner`: three rows, three
columns, two diagonals. -/
def winningLines : List (Nat × Nat × Nat) :=
  [(0, 1, 2), (3, 4, 5), (6, 7, 8),
   (0, 3, 6), (1, 4, 7), (2, 5, 8),
   (0, 4, 8), (2, 4, 6)]

/-- Test of one line inside the `checkWinner` loop: the line yields a mark
when its first cell is non-empty and the other two cells hold the same
mark (`board[a] && board[a] === board[b] && board[a] === board[c]`). -/
def lineWinner (board : Board) (l : Nat × Nat × Nat) : Option Mark :=
  match board.getD l.1 none with
  | none => none
  | some m =>
    if board.getD l.2.1 none = some m ∧ board.getD l.2.2 none = some m
    then some m else none

/-- Win detector of the marking game: return the mark of the first winning
line if any; otherwise `tie` when every cell is filled
(`board.every(cell => cell !== null)`), else `none` (game ongoing). -/
def checkWinner (board : Board) : Option TTTResult :=
  match winningLines.findSome?
      (fun l => (lineWinner board l).map TTTResult.mark) with
  | some r => some r
  | none =>
    if board.all (fun cell => cell.isSome) then some TTTResult.tie
    else none

/-- C6: the win detector checks exactly the 8 lines; when some line holds
three equal non-empty marks m (and m is the mark of every winning line,
which holds on any board reachable in play) the result is m — in
particular board [X, X, X, _, _, _, _, _, _] yields X; when no line
matches and all 9 cells are filled the result is tie; and when no line
matches on a non-full board the result is none (game ongoing). -/
theorem checkWinner_cases (board : Board) (h9 : board.length = 9) :
    winningLines.length = 8
    ∧ (∀ m : Mark, (∃ l ∈ winningLines, lineWinner board l = some m) →
        (∀ l ∈ winningLines, ∀ m2 : Mark,
          lineWinner board l = some m2 → m2 = m) →
        checkWinner board = some (TTTResult.mark m))
    ∧ ((∀ l ∈ winningLines, lineWinner board l = none) →
        board.all (fun cell => cell.isSome) = true →
        checkWinner board = some TTTResult.tie)
    ∧ ((∀ l ∈ winningLines, lineWinner board l = none) →
        board.all (fun cell => cell.isSome) = false →
        checkWinner board = none)
    ∧ checkWinner [some Mark.X, some Mark.X, some Mark.X,
        none, none, none, none, none, none]
      = some (TTTResult.mark Mark.X) := by
  refine ⟨by decide, ?_, ?_, ?_, by decide⟩
  · intro m hex huniq
    rcases hex with ⟨l0, hl0, hw0⟩
    cases hfs : winningLines.findSome?
        (fun l => (lineWinner board l).map TTTResult.mark) with
    | none =>
      exfalso
      rw [List.findSome?_eq_none_iff] at hfs
      have := hfs l0 hl0
      rw [hw0] at this
      simp at this
    | some r =>
      obtain ⟨l1, hl1, hr⟩ := List.exists_of_findSome?_eq_some hfs
      rw [Option.map_eq_some'] at hr
      obtain ⟨m1, hm1, hrm⟩ := hr
      have hm1m : m1 = m := huniq l1 hl1 m1 hm1
      unfold checkWinner
      rw [hfs, ← hrm, hm1m]
  · intro hnone hfull
    have hfs : winningLines.findSome?
        (fun l => (lineWinner board l).map TTTResult.mark) = none := by
      rw [List.findSome?_eq_none_iff]
      intro l hl
      rw [hnone l hl]
      rfl
    unfold checkWinner
    rw [hfs, hfull]
    simp
  · intro hnone hfull
    have hfs : winningLines.findSome?
        (fun l => (lineWinner board l).map TTTResult.mark) = none := by
      rw [List.findSome?_eq_none_iff]
      intro l hl
      rw [hnone l hl]
      rfl
    unfold checkWinner
    rw [hfs, hfull]
    simp

/-- Concrete witness for C6: a full board with no three-in-a-row is a tie,
and the X-row board from the claim yields X. -/
theorem checkWinner_cases_witness :
    checkWinner [some Mark.X, some Mark.O, some Mark.X,
      some Mark.X, some Mark.O, some Mark.O,
      some Mark.O, some Mark.X, some Mark.X] = some TTTResult.tie
    ∧ checkWinner [some Mark.X, some Mark.X, some Mark.X,
        none, none, none, none, none, none]
      = some (TTTResult.mark Mark.X) :=
  ⟨(checkWinner_cases [some Mark.X, some Mark.O, some Mark.X,
      some Mark.X, some Mark.O, some Mark.O,
      some Mark.O, some Mark.X, some Mark.X]
      (by decide)).2.2.1 (by decide) (by decide),
   (checkWinner_cases [some Mark.X, some Mark.X, some Mark.X,
      none, none, none, none, none, none] (by decide)).2.2.2.2⟩

/-! Rock-paper-scissors resolution (`games/RockPaperScissors.tsx`,
`determineWinner`, and `MultiplayerRockPaperScissors`,
`determineRoundWinner`). -/

/-- Choice of one participant: rock, paper or scissors. -/
inductive Choice where
  | rock
  | paper
  | scissors
  deriving DecidableEq, Repr

/-- Round outcome from the point of view of the first argument: win,
lose or tie. -/
inductive RPSResult where
  | win
  | lose
  | tie
  deriving DecidableEq, Repr

/-- Round resolution of `RockPaperScissors.tsx`: equal choices tie; rock
beats scissors, paper beats rock, scissors beats paper; otherwise the
first argument loses. -/
def determineWinner (player computer : Choice) : RPSResult :=
  if player = computer then RPSResult.tie
  else if (player = Choice.rock ∧ computer = Choice.scissors)
       ∨ (player = Choice.paper ∧ computer = Choice.rock)
       ∨ (player = Choice.scissors ∧ computer = Choice.paper)
  then RPSResult.win
  else RPSResult.lose

/-- Round resolution of `MultiplayerRockPaperScissors`: same dominance
table; returns the displayed result text and the two cumulative scores,
incrementing exactly the score of the round winner. -/
def determineRoundWinner (playerChoice opponentChoice : Choice)
    (myScore friendScore : Nat) : String × Nat × Nat :=
  if playerChoice = opponentChoice then
    ("It\x27s a tie!", myScore, friendScore)
  else if (playerChoice = Choice.rock ∧ opponentChoice = Choice.scissors)
       ∨ (playerChoice = Choice.paper ∧ opponentChoice = Choice.rock)
       ∨ (playerChoice = Choice.scissors ∧ opponentChoice = Choice.paper)
  then ("You won this round!", myScore + 1, friendScore)
  else ("Your friend won this round!", myScore, friendScore + 1)

/-- C7: round resolution follows the fixed cyclic dominance relation (rock
beats scissors, scissors beats paper, paper beats rock, equal choices
tie); the multiplayer score update increments exactly the cumulative
score of the round winner; and the independent evaluations by the two
participants of the same pair of choices agree — one side wins exactly
when the evaluation of the swapped pair loses, ties coincide, and the
swapped-pair score updates are mirror images of each other. -/
theorem rps_round_resolution (a b : Choice) (s1 s2 : Nat) :
    (determineWinner a b = RPSResult.tie ↔ a = b)
    ∧ (determineWinner a b = RPSResult.win
        ↔ determineWinner b a = RPSResult.lose)
    ∧ determineWinner Choice.rock Choice.scissors = RPSResult.win
    ∧ determineWinner Choice.scissors Choice.paper = RPSResult.win
    ∧ determineWinner Choice.paper Choice.rock = RPSResult.win
    ∧ (determineWinner a b = RPSResult.win →
        (determineRoundWinner a b s1 s2).2 = (s1 + 1, s2))
    ∧ (determineWinner a b = RPSResult.lose →
        (determineRoundWinner a b s1 s2).2 = (s1, s2 + 1))
    ∧ (determineWinner a b = RPSResult.tie →
        (determineRoundWinner a b s1 s2).2 = (s1, s2))
    ∧ (determineRoundWinner a b s1 s2).2.1
        = (determineRoundWinner b a s2 s1).2.2
    ∧ (determineRoundWinner a b s1 s2).2.2
        = (determineRoundWinner b a s2 s1).2.1 := by
  cases a <;> cases b <;>
    simp [determineWinner, determineRoundWinner]

/-- Concrete witness for C7: rock versus scissors increments the score
of the first player. -/
theorem rps_round_resolution_witness :
    (determineRoundWinner Choice.rock Choice.scissors 0 0).2 = (1, 0) :=
  (rps_round_resolution Choice.rock Choice.scissors 0 0).2.2.2.2.2.1
    (by decide)

/-! Game payload parsing pipeline (`games/MultiplayerGameMenu.tsx`) and
the message-driven rock-paper-scissors effect
(`MultiplayerRockPaperScissors`). -/

/-- Fields of a parsed JSON game payload as read by the game components.
Every field is optional because the parsed JavaScript object may lack it;
reading a missing field yields undefined. -/
structure GameFields where
  gameType : Option String
  action : Option String
  choice : Option Choice
  scores : Option (List (String × Nat))
  result : Option String
  gameId : Option String
  board : Option Board
  currentPlayer : Option Mark
  gameResult : Option TTTResult
  deriving DecidableEq, Repr

/-- Message content as observed through JSON.parse: either not valid JSON
(JSON.parse throws and the menu catches, yielding null) or a parsed object
carrying the optional game fields. -/
inductive Content where
  | text (s : String)
  | json (f : GameFields)
  deriving DecidableEq, Repr

/-- Direct-message shape consumed by `MultiplayerGameMenu`. -/
structure MenuMessage where
  id : String
  sender_id : String
  receiver_id : String
  content : Content
  created_at : Nat
  deriving DecidableEq, Repr

/-- Parsed game message: the parsed payload together with the messageId,
sender and timestamp metadata the menu spreads into it. -/
structure GameMsg where
  fields : GameFields
  messageId : String
  sender : String
  timestamp : Nat
  deriving DecidableEq, Repr

/-- Parse step of the menu: JSON.parse inside try/catch — unparseable
content maps to null and is removed by `.filter(Boolean)`. -/
def parseGameMessage (m : MenuMessage) : Option GameMsg :=
  match m.content with
  | Content.text _ => none
  | Content.json f =>
    some { fields := f, messageId := m.id, sender := m.sender_id,
           timestamp := m.created_at }

/-- Comparison realizing the ascending-timestamp sort of the menu
(`new Date(a.timestamp) - new Date(b.timestamp)` as a comparator). -/
def gameMsgLE (a b : GameMsg) : Bool :=
  decide (a.timestamp ≤ b.timestamp)

/-- Parsing pipeline of `MultiplayerGameMenu`: parse every message,
drop the unparseable ones, sort by timestamp ascending (stable). -/
def parseGameMessages (msgs : List MenuMessage) : List GameMsg :=
  List.mergeSort (msgs.filterMap parseGameMessage) gameMsgLE

/-- Game-message stream handed to the multiplayer RPS component
(the menu keeps only entries whose gameType equals rps). -/
def rpsGameMessages (msgs : List MenuMessage) : List GameMsg :=
  (parseGameMessages msgs).filter
    (fun g => g.fields.gameType == some "rps")

/-- Local state of `MultiplayerRockPaperScissors`. The initial round
result and game id are the empty string; a state field becomes `none`
when the code stores an undefined payload field into it. -/
structure RPSState where
  myChoice : Option Choice
  friendChoice : Option Choice
  myScore : Nat
  friendScore : Nat
  roundResult : Option String
  gameId : Option String
  waitingForFriend : Bool
  deriving DecidableEq, Repr

/-- Initial state of `MultiplayerRockPaperScissors` (all useState
initializers). -/
def initialRPSState : RPSState :=
  { myChoice := none, friendChoice := none, myScore := 0,
    friendScore := 0, roundResult := some "", gameId := some "",
    waitingForFriend := false }

/-- One step of the game-message effect of `MultiplayerRockPaperScissors`
(the useEffect branch on the latest game message). The start branch
resets the state; the choice branch records the incoming choice (and, in
the source, may additionally broadcast a result message — a send, not a
local state change); the result branch reads
`latestGame.scores[user.id]` and `latestGame.scores[friendId]`, which
throws a TypeError when the payload has no scores object — modelled by
`none`; any other action leaves the state unchanged. The delayed
`setTimeout` choice reset after a result is an asynchronous timer and is
not part of the synchronous effect modelled here. -/
def rpsStep (userId friendId : String) (st : RPSState) (g : GameMsg) :
    Option RPSState :=
  if g.fields.action == some "start" then
    some { myChoice := none, friendChoice := none, myScore := 0,
           friendScore := 0, roundResult := some "",
           gameId := g.fields.gameId, waitingForFriend := false }
  else if g.fields.action == some "choice" then
    if g.sender != userId then
      some { st with friendChoice := g.fields.choice }
    else some st
  else if g.fields.action == some "result" then
    match g.fields.scores with
    | none => none
    | some sc =>
      some { st with
        myScore := (List.lookup userId sc).getD 0,
        friendScore := (List.lookup friendId sc).getD 0,
        roundResult := g.fields.result }
  else some st

/-- Replay of the game-message effect over a whole parsed sequence; a
`none` result models a thrown TypeError aborting the reconstruction. -/
def rpsReplay (userId friendId : String) (gs : List GameMsg) :
    Option RPSState :=
  List.foldlM (rpsStep userId friendId) initialRPSState gs

/-- Whole reconstruction for the RPS game from raw conversation
messages. -/
def rpsReconstruct (userId friendId : String)
    (msgs : List MenuMessage) : Option RPSState :=
  rpsReplay userId friendId (rpsGameMessages msgs)

/-- Valid-JSON result payload that lacks the scores object. -/
def malformedResultMsg : MenuMessage :=
  { id := "g1", sender_id := "peer", receiver_id := "self",
    content := Content.json
      { gameType := some "rps", action := some "result", choice := none,
        scores := none, result := some "You won this round!",
        gameId := some "42", board := none, currentPlayer := none,
        gameResult := none },
    created_at := 1 }

/-- C8 counterexample: a parsed game payload that is missing the required
scores field is not dropped by the parsing stage (it survives into the
game-message sequence), and replaying it fails — the result branch reads
a property of the missing scores object, modelled by the fold returning
none — so the reconstruction is not total on payloads with missing
required fields. -/
theorem game_fold_crash_counterexample :
    (rpsGameMessages [malformedResultMsg]).length = 1
    ∧ rpsReconstruct "self" "peer" [malformedResultMsg] = none := by
  constructor
  · simp [rpsGameMessages, parseGameMessages, parseGameMessage,
      malformedResultMsg, List.mergeSort]
  · simp [rpsReconstruct, rpsReplay, rpsGameMessages, parseGameMessages,
      parseGameMessage, malformedResultMsg, rpsStep, List.mergeSort,
      initialRPSState]

/-- Helper for the amended C8: the replay is total from any start state as
long as every result payload in the sequence carries a scores object. -/
theorem rpsReplay_total_of_scores (userId friendId : String)
    (gs : List GameMsg)
    (h : ∀ g ∈ gs, g.fields.action = some "result" →
      g.fields.scores ≠ none) :
    ∀ st, ∃ st2, List.foldlM (rpsStep userId friendId) st gs = some st2 := by
  induction gs with
  | nil => intro st; exact ⟨st, rfl⟩
  | cons g t ih =>
    intro st
    have hg : (rpsStep userId friendId st g).isSome := by
      by_cases h1 : g.fields.action = some "start"
      · simp [rpsStep, h1]
      · by_cases h2 : g.fields.action = some "choice"
        · by_cases h3 : g.sender = userId
          · simp [rpsStep, h1, h2, h3]
          · simp [rpsStep, h1, h2, h3]
        · by_cases h4 : g.fields.action = some "result"
          · cases hsc : g.fields.scores with
            | none =>
              exact absurd hsc (h g (List.mem_cons_self g t) h4)
            | some sc =>
              simp [rpsStep, h1, h2, h4, hsc]
          · simp [rpsStep, h1, h2, h4]
    obtain ⟨st1, hst1⟩ := Option.isSome_iff_exists.mp hg
    obtain ⟨st2, hst2⟩ :=
      ih (fun x hx hr => h x (List.mem_cons_of_mem g hx) hr) st1
    refine ⟨st2, ?_⟩
    rw [List.foldlM_cons, hst1]
    simpa using hst2

/-- C8 amended: a message whose content is unparseable as JSON is dropped
silently — it contributes nothing to the parsed game-message sequence,
wherever it sits in the conversation — and the reconstruction fold
produces a state whenever every surviving result payload carries its
scores object; but a parsed payload missing the required scores field is
not dropped and makes the RPS result branch fail (see the
counterexample). -/
theorem game_parse_drops_unparseable_and_fold_total
    (msgs1 msgs2 : List MenuMessage) (m : MenuMessage) (s : String)
    (userId friendId : String)
    (htext : m.content = Content.text s)
    (hscores : ∀ g ∈ rpsGameMessages (msgs1 ++ msgs2),
      g.fields.action = some "result" → g.fields.scores ≠ none) :
    parseGameMessages (msgs1 ++ m :: msgs2)
      = parseGameMessages (msgs1 ++ msgs2)
    ∧ ∃ st, rpsReconstruct userId friendId (msgs1 ++ msgs2) = some st := by
  constructor
  · unfold parseGameMessages
    have hnone : parseGameMessage m = none := by
      unfold parseGameMessage
      rw [htext]
    rw [List.filterMap_append, List.filterMap_cons, hnone,
      List.filterMap_append]
  · exact rpsReplay_total_of_scores userId friendId _ hscores
      initialRPSState

/-- Concrete witness for the amended C8: a plain text message contributes
nothing to the parsed sequence, and replaying the empty conversation
yields a state. -/
theorem game_parse_drops_unparseable_witness :
    parseGameMessages
        [{ id := "t1", sender_id := "self", receiver_id := "peer",
           content := Content.text "hello", created_at := 1 }]
      = parseGameMessages []
    ∧ ∃ st, rpsReconstruct "self" "peer" [] = some st := by
  have h := game_parse_drops_unparseable_and_fold_total [] []
    { id := "t1", sender_id := "self", receiver_id := "peer",
      content := Content.text "hello", created_at := 1 }
    "hello" "self" "peer" rfl
    (by simp [rpsGameMessages, parseGameMessages, List.mergeSort])
  simpa using h

/-! Conversation index (`DirectMessages.tsx`, `fetchConversations`). -/

/-- Derived conversation entry: a friend and the latest message of the
pair, if any. -/
structure Conversation where
  friend : Profile
  lastMessage : Option DirectMessage
  deriving DecidableEq, Repr

/-- Boolean rendering of the sort comparator of `fetchConversations`
(comparator value at most 0, i.e. a may stay before b): both without a
message compare equal; an entry without a message goes after one with a
message; two entries with messages compare by created_at descending. -/
def convLE (a b : Conversation) : Bool :=
  match a.lastMessage, b.lastMessage with
  | none, none => true
  | none, some _ => false
  | some _, none => true
  | some ma, some mb => decide (mb.created_at ≤ ma.created_at)

/-- Derivation of the conversation list: one entry per friend carrying
the latest message of that pair, sorted with the comparator; Array.sort
of the JavaScript engine is stable, modelled by a stable merge sort. -/
def fetchConversations (friendsList : List Profile)
    (lastMessageOf : Profile → Option DirectMessage) :
    List Conversation :=
  List.mergeSort
    (friendsList.map
      (fun f => { friend := f, lastMessage := lastMessageOf f }))
    convLE

/-- Helper: the conversation comparator is transitive. -/
theorem convLE_trans (a b c : Conversation) :
    convLE a b → convLE b c → convLE a c := by
  unfold convLE
  cases a.lastMessage <;> cases b.lastMessage <;>
    cases c.lastMessage <;> simp <;> omega

/-- Helper: the conversation comparator is total. -/
theorem convLE_total (a b : Conversation) :
    convLE a b || convLE b a := by
  unfold convLE
  cases a.lastMessage <;> cases b.lastMessage <;> simp <;> omega

/-- Friend profile with no message in the concrete sort scenario. -/
def friendNone : Profile :=
  { id := "alice", username := some "alice", avatar_url := none }

/-- Friend profile whose last message has timestamp 5. -/
def friendT5 : Profile :=
  { id := "bob", username := some "bob", avatar_url := none }

/-- Friend profile whose last message has timestamp 10. -/
def friendT10 : Profile :=
  { id := "cara", username := some "cara", avatar_url := none }

/-- Last message of the pair with `friendT5`, created_at 5. -/
def msgAt5 : DirectMessage :=
  { id := "m5", sender_id := "bob", receiver_id := "self",
    content := "five", image_url := none, created_at := 5,
    sender := none, read_at := none }

/-- Last message of the pair with `friendT10`, created_at 10. -/
def msgAt10 : DirectMessage :=
  { id := "m10", sender_id := "cara", receiver_id := "self",
    content := "ten", image_url := none, created_at := 10,
    sender := none, read_at := none }

/-- Last-message lookup for the concrete sort scenario. -/
def exampleLastOf (f : Profile) : Option DirectMessage :=
  if f.id = "bob" then some msgAt5
  else if f.id = "cara" then some msgAt10
  else none

/-- C9: the derived conversation list is sorted by the comparator — by
lastMessage.created_at descending with message-less conversations after
every conversation that has a message — it is a permutation of the
per-friend entries, the message-less entries keep their relative input
order (stability), and the concrete scenario with last-message
timestamps [none, 5, 10] derives the order [10, 5, none]. -/
theorem fetchConversations_sorted (friendsList : List Profile)
    (lastMessageOf : Profile → Option DirectMessage) :
    (fetchConversations friendsList lastMessageOf).Pairwise
      (fun a b => convLE a b = true)
    ∧ List.Perm (fetchConversations friendsList lastMessageOf)
        (friendsList.map
          (fun f => { friend := f, lastMessage := lastMessageOf f }))
    ∧ ((friendsList.map
          (fun f => ({ friend := f, lastMessage := lastMessageOf f }
            : Conversation))).filter
        (fun c => c.lastMessage.isNone)).Sublist
        (fetchConversations friendsList lastMessageOf)
    ∧ fetchConversations [friendNone, friendT5, friendT10] exampleLastOf
      = [{ friend := friendT10, lastMessage := some msgAt10 },
         { friend := friendT5, lastMessage := some msgAt5 },
         { friend := friendNone, lastMessage := none }] := by
  refine ⟨?_, ?_, ?_, ?_⟩
  · exact List.sorted_mergeSort
      (fun a b c => convLE_trans a b c) (fun a b => convLE_total a b) _
  · exact List.mergeSort_perm _ _
  · apply List.sublist_mergeSort
      (fun a b c => convLE_trans a b c) (fun a b => convLE_total a b)
    · apply List.pairwise_of_forall_mem_list
      intro a ha b hb
      have ha2 : a.lastMessage.isNone := by
        simpa using List.of_mem_filter ha
      have hb2 : b.lastMessage.isNone := by
        simpa using List.of_mem_filter hb
      unfold convLE
      rw [Option.isNone_iff_eq_none] at ha2 hb2
      rw [ha2, hb2]
    · exact List.filter_sublist _
  · simp [fetchConversations, exampleLastOf, friendNone, friendT5,
      friendT10, List.mergeSort, convLE, msgAt5, msgAt10]

/-! Realtime INSERT callback, whole-handler view (`DirectMessages.tsx`). -/

/-- Local view state touched by the realtime INSERT callback. -/
structure DMViewState where
  messages : List DirectMessage
  conversations : List Conversation
  deriving DecidableEq, Repr

/-- Realtime INSERT callback: the arrived row is re-fetched with its
sender profile joined; fetchResult models that re-fetch, `none` standing
for an error (the code logs and returns) or a missing row (the code
skips the whole update block). On success the dedup append runs on the
message log and the conversation list is re-fetched, modelled by the
refetchedConversations argument. -/
def handleRealtimeInsert (st : DMViewState)
    (fetchResult : Option DirectMessage)
    (refetchedConversations : List Conversation) : DMViewState :=
  match fetchResult with
  | none => st
  | some m =>
    { messages := realtimeInsertUpdate st.messages m,
      conversations := refetchedConversations }

/-- C10: when the detail re-fetch of the arrived message fails (error or
no row), the realtime INSERT callback leaves the whole local view state
— message log and conversation list — exactly as it was, whatever a
successful conversation re-fetch would have produced. -/
theorem realtime_insert_drops_failed_fetch (st : DMViewState)
    (refetchedConversations : List Conversation) :
    handleRealtimeInsert st none refetchedConversations = st := rfl

end SocialMedia
